import Mathlib

/-!
Shallow embedding of the Arduino-Step-Function interpreter
(`src/StepFunction.cpp`, the later revision of the two drafts; where the
earlier draft `src/step-function.cpp` differs — Wait reads `Seconds` instead
of `Millis`, Task/Choice do not refresh `waitUntil`, Wait falls through to
NEXT_STEP — none of the verified claims depends on the difference, and the
divergent behaviours are noted at the definitions).

The JSON library (ArduinoJson) is an external collaborator of the program,
specified only at its interface: a document object model with object /
array / scalar access and round-trip serialization.  We therefore model
JSON documents directly as the tree `JVal`; a serialized blob is modelled
as `Option JVal` — `some v` for a text that parses back to the document
`v` (round-trip serialization), `none` for a text that fails to parse.
A missing or null member read as a string yields the empty string, per the
interface description ("reading a missing key yields an empty/absent
value").  The millisecond clock `millis()` is a parameter `now`;
`unsigned long` values are natural numbers reduced modulo 2^32 = 4294967296
where the code can overflow.
-/

namespace ArduinoStepFunction

/-- A JSON document value, the document object model of the external JSON
library. Objects keep their bindings in declaration order. -/
inductive JVal where
  | jnull : JVal
  | jbool : Bool → JVal
  | jint : Int → JVal
  | jstr : String → JVal
  | jarr : List JVal → JVal
  | jobj : List (String × JVal) → JVal

/-- `value[key]` member access: on an object, the first binding of `key`;
on anything else (including null) there is no member. -/
def JVal.member : JVal → String → Option JVal
  | .jobj kvs, k => (kvs.find? (fun kv => kv.1 == k)).map (fun kv => kv.2)
  | _, _ => none

/-- `variant.as<String>()` at the spec's interface for the JSON
collaborator: a string variant yields its characters, a missing or null
variant yields the empty string, other scalars render textually,
containers yield the empty string. -/
def asString : Option JVal → String
  | some (.jstr s) => s
  | some (.jbool b) => if b then "true" else "false"
  | some (.jint n) => toString n
  | _ => ""

/-- `variant.as<unsigned long>()`: an integer variant converts modulo
2^32; a missing, null or non-numeric variant yields 0. -/
def asUInt32 : Option JVal → Nat
  | some (.jint n) => (n % 4294967296).toNat
  | _ => 0

/-- `variant.as<int>()`: an integer variant truncates to 32-bit two's
complement; a missing, null or non-numeric variant yields 0. -/
def asInt32 : Option JVal → Int
  | some (.jint n) => (n + 2147483648) % 4294967296 - 2147483648
  | _ => 0

/-- `variant.is<String>()`: true exactly when the variant holds a string. -/
def isStringVal : Option JVal → Bool
  | some (.jstr _) => true
  | _ => false

/-- Assigning `variant.as<JsonObject>()` into a `JsonDocument`: an object
keeps its bindings, anything else (missing key, null, scalar, array)
leaves the null document. -/
def asObjDoc : Option JVal → JVal
  | some (.jobj kvs) => .jobj kvs
  | _ => .jnull

/-- Iterating `JsonArray choices = state["Choices"]`: a missing or
non-array member is the null array and iterates zero elements. -/
def asArr : Option JVal → List JVal
  | some (.jarr xs) => xs
  | _ => []

/-- Status code: the state is invalid or unrecognized. -/
def INVALID_STATE : Int := -2

/-- Status code: the process has successfully completed. -/
def END_OF_PROCESS : Int := -1

/-- Status code: the next step in the process is ready to run. -/
def NEXT_STEP : Int := 1

/-- Status code: the state machine is currently in a wait/delay state. -/
def WAIT_DELAY : Int := 2

/-- The interpreter object: parsed definition document `doc`, variable
store document `globalState`, and the execution cursor (`currentState`,
`waitUntil`, `recommendedDelay`, both `unsigned long`). -/
structure StepFunction where
  doc : JVal
  globalState : JVal
  currentState : String
  waitUntil : Nat
  recommendedDelay : Nat

/-- The user task callback `(const String &resource, JsonDocument
&globalState)`: it may rewrite the variable store arbitrarily, modelled as
the store it leaves behind. -/
def FunctionCallback : Type := String → JVal → JVal

/-- Result of one `run()` call: the returned status, the interpreter
after the call, and the trace of callback invocations performed during
the call (resource passed, variable store at the moment of the call). -/
structure RunOut where
  status : Int
  sf : StepFunction
  calls : List (String × JVal)

/-- `states[currentState]` lookup: `JsonObject states = doc["States"];
JsonObject state = states[currentState];` — the descriptor of the current
state, when it exists and is an object. -/
def StepFunction.stateAt (sf : StepFunction) : Option JVal :=
  (sf.doc.member "States").bind (fun st => st.member sf.currentState)

/-- Dispatch on the current descriptor (the body of `run()` after the
`state.isNull()` test succeeded, descriptor bindings `kvs`).  Task and
Choice set `waitUntil = millis()` (later revision); Wait reads `Millis`,
commits `Next` immediately and returns WAIT_DELAY (later revision with
LOG defined; the earlier draft reads `Seconds`, multiplies by 1000 and
returns NEXT_STEP).  A `Type` other than Task/Choice/Wait falls through
all branches to the final `return NEXT_STEP` with nothing changed. -/
def runState (cb : FunctionCallback) (now : Nat) (sf : StepFunction)
    (kvs : List (String × JVal)) : RunOut :=
  if asString ((JVal.jobj kvs).member "Type") == "Task" then
    if isStringVal ((JVal.jobj kvs).member "Next") then
      { status := NEXT_STEP,
        sf := { sf with
                waitUntil := now,
                globalState :=
                  cb (asString ((JVal.jobj kvs).member "Resource")) sf.globalState,
                currentState := asString ((JVal.jobj kvs).member "Next") },
        calls := [(asString ((JVal.jobj kvs).member "Resource"), sf.globalState)] }
    else
      { status := END_OF_PROCESS,
        sf := { sf with
                waitUntil := now,
                globalState :=
                  cb (asString ((JVal.jobj kvs).member "Resource")) sf.globalState },
        calls := [(asString ((JVal.jobj kvs).member "Resource"), sf.globalState)] }
  else if asString ((JVal.jobj kvs).member "Type") == "Choice" then
    { status := NEXT_STEP,
      sf := { sf with
              waitUntil := now,
              currentState :=
                match (asArr ((JVal.jobj kvs).member "Choices")).find?
                    (fun c => asString (c.member "StringEquals")
                      == asString (sf.globalState.member
                            (asString ((JVal.jobj kvs).member "Variable")))) with
                | some c => asString (c.member "Next")
                | none => asString ((JVal.jobj kvs).member "Default") },
      calls := [] }
  else if asString ((JVal.jobj kvs).member "Type") == "Wait" then
    { status := WAIT_DELAY,
      sf := { sf with
              waitUntil :=
                (((now : Int) + asInt32 ((JVal.jobj kvs).member "Millis"))
                  % 4294967296).toNat,
              currentState := asString ((JVal.jobj kvs).member "Next") },
      calls := [] }
  else
    { status := NEXT_STEP, sf := sf, calls := [] }

/-- `int StepFunction::run()`: while the clock reads earlier than
`waitUntil`, recompute `recommendedDelay` and report WAIT_DELAY; otherwise
look the current state up in the definition and dispatch on its type,
INVALID_STATE when the lookup yields no object. -/
def StepFunction.run (cb : FunctionCallback) (now : Nat)
    (sf : StepFunction) : RunOut :=
  if now < sf.waitUntil then
    { status := WAIT_DELAY,
      sf := { sf with recommendedDelay := sf.waitUntil - now },
      calls := [] }
  else
    match sf.stateAt with
    | some (.jobj kvs) => runState cb now sf kvs
    | _ => { status := INVALID_STATE, sf := sf, calls := [] }

/-- `void StepFunction::setup(const char *jsonConfig)`: a config text that
fails to parse returns early and changes nothing; on success the parsed
document replaces `doc` and `currentState` becomes its `StartAt` string.
Nothing else is touched. -/
def StepFunction.setup (jsonConfig : Option JVal)
    (sf : StepFunction) : StepFunction :=
  match jsonConfig with
  | none => sf
  | some j => { sf with doc := j, currentState := asString (j.member "StartAt") }

/-- `unsigned long StepFunction::getRecommendedDelay()`. -/
def StepFunction.getRecommendedDelay (sf : StepFunction) : Nat :=
  sf.recommendedDelay

/-- `String StepFunction::saveState()`: the persisted-state document
(the code serializes it to text; round-trip serialization of the JSON
collaborator makes the text interchangeable with the document). -/
def StepFunction.saveState (sf : StepFunction) : JVal :=
  .jobj [("GlobalState", sf.globalState),
         ("CurrentState", .jstr sf.currentState),
         ("WaitUntil", .jint (sf.waitUntil : Int)),
         ("RecommendedDelay", .jint (sf.recommendedDelay : Int))]

/-- `bool StepFunction::restoreState(const String &savedState)`: a blob
that fails to parse (`none`) returns false and changes nothing; a parsed
blob overwrites the four persisted fields from its members (defaults for
members that are missing or of the wrong shape) and returns true. -/
def StepFunction.restoreState (savedState : Option JVal)
    (sf : StepFunction) : Bool × StepFunction :=
  match savedState with
  | none => (false, sf)
  | some j =>
    (true, { sf with
             globalState := asObjDoc (j.member "GlobalState"),
             currentState := asString (j.member "CurrentState"),
             waitUntil := asUInt32 (j.member "WaitUntil"),
             recommendedDelay := asUInt32 (j.member "RecommendedDelay") })

/-- The variable store document is an object or the null (empty) document:
the shapes a `JsonDocument` used as a variable store can take through the
interpreter's own operations. -/
def JVal.isObjOrNull : JVal → Bool
  | .jnull => true
  | .jobj _ => true
  | _ => false

/-! ### Concrete fixtures used by witnesses and counterexamples -/

/-- A callback that leaves the variable store unchanged. -/
def cbKeep : FunctionCallback := fun _ gs => gs

/-- An interpreter that is in the middle of a wait (`waitUntil = 5`). -/
def sfMidWait : StepFunction :=
  { doc := .jnull, globalState := .jnull, currentState := "Old",
    waitUntil := 5, recommendedDelay := 0 }

/-- A well-formed definition document with `StartAt = "A"`. -/
def defStartA : JVal :=
  .jobj [("StartAt", .jstr "A"),
         ("States", .jobj [("A", .jobj [("Type", .jstr "Task")])])]

/-- An interpreter positioned on a state of the unsupported type
`"Succeed"` (the type the header's own example uses as a terminal). -/
def sfSucceed : StepFunction :=
  { doc := .jobj [("States", .jobj [("A", .jobj [("Type", .jstr "Succeed")])])],
    globalState := .jnull, currentState := "A", waitUntil := 0,
    recommendedDelay := 0 }

/-- An interpreter positioned on a Task state `A` with `Next = "B"`;
state `B` is a Task with no `Next`. -/
def sfTask : StepFunction :=
  { doc := .jobj [("States", .jobj
      [("A", .jobj [("Type", .jstr "Task"), ("Resource", .jstr "read"),
                    ("Next", .jstr "B")]),
       ("B", .jobj [("Type", .jstr "Task"), ("Resource", .jstr "log")])])],
    globalState := .jnull, currentState := "A", waitUntil := 0,
    recommendedDelay := 0 }

/-- A callback that stores `v = "hot"` in the variable store. -/
def cbSetHot : FunctionCallback := fun _ _ => .jobj [("v", .jstr "hot")]

/-- An interpreter positioned on the terminal Task state `B` (no
`Next`). -/
def sfTaskEnd : StepFunction :=
  { sfTask with currentState := "B", waitUntil := 4 }

/-- The bindings of the Choice descriptor `B` used by the C1 witness. -/
def choiceKvs : List (String × JVal) :=
  [("Type", .jstr "Choice"), ("Variable", .jstr "v"),
   ("Choices", .jarr
     [.jobj [("StringEquals", .jstr "hot"), ("Next", .jstr "C")],
      .jobj [("StringEquals", .jstr "cold"), ("Next", .jstr "D")]]),
   ("Default", .jstr "E")]

/-- An interpreter on the Choice state `B` whose store holds
`v = "cold"`, matching the second choice but not the first. -/
def sfChoice : StepFunction :=
  { doc := .jobj [("States", .jobj [("B", .jobj choiceKvs)])],
    globalState := .jobj [("v", .jstr "cold")], currentState := "B",
    waitUntil := 0, recommendedDelay := 0 }

/-- An interpreter positioned on a Wait state `C` with `Millis = 5000`
and `Next = "E"`. -/
def sfWait : StepFunction :=
  { doc := .jobj [("States", .jobj
      [("C", .jobj [("Type", .jstr "Wait"), ("Millis", .jint 5000),
                    ("Next", .jstr "E")]),
       ("E", .jobj [("Type", .jstr "Task"), ("Resource", .jstr "cool")])])],
    globalState := .jnull, currentState := "C", waitUntil := 0,
    recommendedDelay := 0 }

/-- An interpreter with a populated store and nonzero wait bookkeeping,
used by the C8 witness. -/
def sfRich : StepFunction :=
  { doc := defStartA, globalState := .jobj [("v", .jstr "hot")],
    currentState := "C", waitUntil := 7, recommendedDelay := 2 }

/-! ### Helper lemmas about `run` -/

/-- A `run()` call past the wait deadline whose current state resolves to
an object descriptor dispatches on that descriptor. -/
theorem run_at_state (cb : FunctionCallback) (now : Nat)
    (sf : StepFunction) (kvs : List (String × JVal))
    (h_now : ¬ now < sf.waitUntil)
    (h_state : sf.stateAt = some (.jobj kvs)) :
    sf.run cb now = runState cb now sf kvs := by
  unfold StepFunction.run
  rw [if_neg h_now, h_state]

/-- The Task branch of the dispatch when `Next` holds a string. -/
theorem runState_task_next (cb : FunctionCallback) (now : Nat)
    (sf : StepFunction) (kvs : List (String × JVal)) (nxt : String)
    (h_type : asString ((JVal.jobj kvs).member "Type") = "Task")
    (h_next : (JVal.jobj kvs).member "Next" = some (.jstr nxt)) :
    runState cb now sf kvs =
      { status := NEXT_STEP,
        sf := { sf with
                waitUntil := now,
                globalState :=
                  cb (asString ((JVal.jobj kvs).member "Resource"))
                    sf.globalState,
                currentState := nxt },
        calls := [(asString ((JVal.jobj kvs).member "Resource"),
                   sf.globalState)] } := by
  simp only [runState, beq_iff_eq]
  rw [if_pos h_type, if_pos (by rw [h_next]; rfl), h_next]
  rfl

/-- The Task branch of the dispatch when `Next` is absent. -/
theorem runState_task_end (cb : FunctionCallback) (now : Nat)
    (sf : StepFunction) (kvs : List (String × JVal))
    (h_type : asString ((JVal.jobj kvs).member "Type") = "Task")
    (h_next : (JVal.jobj kvs).member "Next" = none) :
    runState cb now sf kvs =
      { status := END_OF_PROCESS,
        sf := { sf with
                waitUntil := now,
                globalState :=
                  cb (asString ((JVal.jobj kvs).member "Resource"))
                    sf.globalState },
        calls := [(asString ((JVal.jobj kvs).member "Resource"),
                   sf.globalState)] } := by
  simp only [runState, beq_iff_eq]
  rw [if_pos h_type, if_neg (by rw [h_next]; decide)]

/-- The Choice branch of the dispatch. -/
theorem runState_choice (cb : FunctionCallback) (now : Nat)
    (sf : StepFunction) (kvs : List (String × JVal))
    (h_type : asString ((JVal.jobj kvs).member "Type") = "Choice") :
    runState cb now sf kvs =
      { status := NEXT_STEP,
        sf := { sf with
                waitUntil := now,
                currentState :=
                  match (asArr ((JVal.jobj kvs).member "Choices")).find?
                      (fun c => asString (c.member "StringEquals")
                        == asString (sf.globalState.member
                              (asString ((JVal.jobj kvs).member "Variable")))) with
                  | some c => asString (c.member "Next")
                  | none => asString ((JVal.jobj kvs).member "Default") },
        calls := [] } := by
  simp only [runState, beq_iff_eq]
  rw [if_neg (by rw [h_type]; decide), if_pos h_type]

/-- The Wait branch of the dispatch. -/
theorem runState_wait (cb : FunctionCallback) (now : Nat)
    (sf : StepFunction) (kvs : List (String × JVal))
    (h_type : asString ((JVal.jobj kvs).member "Type") = "Wait") :
    runState cb now sf kvs =
      { status := WAIT_DELAY,
        sf := { sf with
                waitUntil :=
                  (((now : Int)
                    + asInt32 ((JVal.jobj kvs).member "Millis"))
                      % 4294967296).toNat,
                currentState := asString ((JVal.jobj kvs).member "Next") },
        calls := [] } := by
  simp only [runState, beq_iff_eq]
  rw [if_neg (by rw [h_type]; decide), if_neg (by rw [h_type]; decide),
    if_pos h_type]

/-- While the clock reads earlier than `waitUntil`, `run()` only
recomputes `recommendedDelay` and reports WAIT_DELAY. -/
theorem run_waiting (cb : FunctionCallback) (now : Nat)
    (sf : StepFunction) (h : now < sf.waitUntil) :
    sf.run cb now =
      { status := WAIT_DELAY,
        sf := { sf with recommendedDelay := sf.waitUntil - now },
        calls := [] } := by
  unfold StepFunction.run
  rw [if_pos h]

/-- `List.find?` returns the element at the first index satisfying the
predicate. -/
theorem find?_eq_of_first {α : Type} (p : α → Bool) (xs : List α)
    (i : Nat) (hi : i < xs.length) (hp : p (xs.get ⟨i, hi⟩) = true)
    (hfirst : ∀ j (hj : j < i),
      p (xs.get ⟨j, Nat.lt_trans hj hi⟩) = false) :
    xs.find? p = some (xs.get ⟨i, hi⟩) := by
  induction xs generalizing i with
  | nil => exact absurd hi (Nat.not_lt_zero i)
  | cons x xs ih =>
    cases i with
    | zero =>
      have hp' : p x = true := hp
      rw [List.find?_cons_of_pos _ hp']
      rfl
    | succ n =>
      have hx : p x = false := hfirst 0 (Nat.succ_pos n)
      rw [List.find?_cons_of_neg _ (by simp [hx])]
      exact ih n (Nat.lt_of_succ_lt_succ hi) hp
        (fun j hj => hfirst (j + 1) (Nat.succ_lt_succ hj))

/-- `as<JsonObject>` assigned into a document round-trips stores that
are objects or the null document. -/
theorem asObjDoc_of_isObjOrNull (v : JVal) (h : v.isObjOrNull = true) :
    asObjDoc (some v) = v := by
  cases v <;> simp_all [asObjDoc, JVal.isObjOrNull]

/-- `as<unsigned long>` recovers 32-bit naturals stored as integers. -/
theorem asUInt32_coe (m : Nat) (h : m < 4294967296) :
    asUInt32 (some (.jint (m : Int))) = m := by
  simp only [asUInt32]
  omega

/-! ### Claims -/

/-- C1: for a Choice descriptor, one `run()` call past the deadline
scans the choices array in declared order: `currentState` becomes the
`Next` of the first choice whose `StringEquals` string equals the string
value of the store at the descriptor's `Variable` (exact, case-sensitive
equality), or the descriptor's `Default` when no choice matches; the
call returns NEXT_STEP and does not modify the variable store. -/
theorem run_choice (cb : FunctionCallback) (now : Nat)
    (sf : StepFunction) (kvs : List (String × JVal))
    (value : String) (choices : List JVal)
    (h_now : ¬ now < sf.waitUntil)
    (h_state : sf.stateAt = some (.jobj kvs))
    (h_type : asString ((JVal.jobj kvs).member "Type") = "Choice")
    (h_value : value
      = asString (sf.globalState.member
          (asString ((JVal.jobj kvs).member "Variable"))))
    (h_choices : choices = asArr ((JVal.jobj kvs).member "Choices")) :
    (sf.run cb now).status = NEXT_STEP ∧
    (sf.run cb now).sf.globalState = sf.globalState ∧
    (sf.run cb now).calls = [] ∧
    (∀ i (hi : i < choices.length),
      asString ((choices.get ⟨i, hi⟩).member "StringEquals") = value →
      (∀ j (hj : j < i),
        asString ((choices.get ⟨j, Nat.lt_trans hj hi⟩).member
          "StringEquals") ≠ value) →
      (sf.run cb now).sf.currentState
        = asString ((choices.get ⟨i, hi⟩).member "Next")) ∧
    ((∀ c ∈ choices, asString (c.member "StringEquals") ≠ value) →
      (sf.run cb now).sf.currentState
        = asString ((JVal.jobj kvs).member "Default")) := by
  have hrun := (run_at_state cb now sf kvs h_now h_state).trans
    (runState_choice cb now sf kvs h_type)
  refine ⟨by simp only [hrun], by simp only [hrun], by simp only [hrun],
    ?_, ?_⟩
  · intro i hi hp hfirst
    have hfind : choices.find?
        (fun c => asString (c.member "StringEquals") == value)
        = some (choices.get ⟨i, hi⟩) :=
      find?_eq_of_first _ choices i hi (by simpa using hp)
        (fun j hj => by simpa using hfirst j hj)
    simp only [hrun]
    rw [← h_choices, ← h_value, hfind]
  · intro hnone
    have hfind : choices.find?
        (fun c => asString (c.member "StringEquals") == value)
        = none := by
      rw [List.find?_eq_none]
      intro c hc
      simpa using hnone c hc
    simp only [hrun]
    rw [← h_choices, ← h_value, hfind]

/-- Witness for C1 at a concrete input: with `v = "cold"`, the first
choice (`"hot"`) fails, the second (`"cold"`) wins, and `run()` moves
the cursor to `"D"` without touching the store. -/
theorem run_choice_witness :
    (¬ (0 : Nat) < sfChoice.waitUntil ∧
     sfChoice.stateAt = some (.jobj choiceKvs)) ∧
    ((sfChoice.run cbKeep 0).status = NEXT_STEP ∧
     (sfChoice.run cbKeep 0).sf.globalState = sfChoice.globalState ∧
     (sfChoice.run cbKeep 0).calls = [] ∧
     (sfChoice.run cbKeep 0).sf.currentState = "D") := by
  have H := run_choice cbKeep 0 sfChoice choiceKvs "cold"
    [.jobj [("StringEquals", .jstr "hot"), ("Next", .jstr "C")],
     .jobj [("StringEquals", .jstr "cold"), ("Next", .jstr "D")]]
    (by decide) rfl rfl rfl rfl
  exact ⟨⟨by decide, rfl⟩, H.1, H.2.1, H.2.2.1,
    H.2.2.2.1 1 (by decide) rfl (by decide)⟩

/-- C2: for a Task descriptor with a string `Next` field, one `run()`
call past the deadline invokes the callback exactly once with the
descriptor's `Resource` string and the current variable store (the trace
is that single call), installs the callback's store, sets `currentState`
to the `Next` target and returns NEXT_STEP. -/
theorem run_task_with_next (cb : FunctionCallback) (now : Nat)
    (sf : StepFunction) (kvs : List (String × JVal)) (nxt : String)
    (h_now : ¬ now < sf.waitUntil)
    (h_state : sf.stateAt = some (.jobj kvs))
    (h_type : asString ((JVal.jobj kvs).member "Type") = "Task")
    (h_next : (JVal.jobj kvs).member "Next" = some (.jstr nxt)) :
    sf.run cb now =
      { status := NEXT_STEP,
        sf := { sf with
                waitUntil := now,
                globalState :=
                  cb (asString ((JVal.jobj kvs).member "Resource"))
                    sf.globalState,
                currentState := nxt },
        calls := [(asString ((JVal.jobj kvs).member "Resource"),
                   sf.globalState)] } := by
  rw [run_at_state cb now sf kvs h_now h_state,
    runState_task_next cb now sf kvs nxt h_type h_next]

/-- Witness for C2 at a concrete input: the Task state `A` runs its
callback on resource `"read"` and advances to `"B"`. -/
theorem run_task_with_next_witness :
    (¬ (3 : Nat) < sfTask.waitUntil ∧
     sfTask.stateAt = some (.jobj [("Type", .jstr "Task"),
       ("Resource", .jstr "read"), ("Next", .jstr "B")])) ∧
    sfTask.run cbSetHot 3 =
      { status := NEXT_STEP,
        sf := { sfTask with
                waitUntil := 3,
                globalState := .jobj [("v", .jstr "hot")],
                currentState := "B" },
        calls := [("read", .jnull)] } :=
  ⟨⟨by decide, rfl⟩,
    run_task_with_next cbSetHot 3 sfTask
      [("Type", .jstr "Task"), ("Resource", .jstr "read"),
       ("Next", .jstr "B")] "B" (by decide) rfl rfl rfl⟩

/-- C3: for a Task descriptor with no `Next` field, one `run()` call past
the deadline invokes the callback exactly once and returns
END_OF_PROCESS with `currentState` unchanged; consequently a later
`run()` call (at any clock not earlier than this one) re-evaluates the
same state, re-invokes the callback once more and returns END_OF_PROCESS
again. -/
theorem run_task_no_next (cb cb2 : FunctionCallback) (now now2 : Nat)
    (sf : StepFunction) (kvs : List (String × JVal))
    (h_now : ¬ now < sf.waitUntil)
    (h_state : sf.stateAt = some (.jobj kvs))
    (h_type : asString ((JVal.jobj kvs).member "Type") = "Task")
    (h_next : (JVal.jobj kvs).member "Next" = none)
    (h_later : now ≤ now2) :
    (sf.run cb now).status = END_OF_PROCESS ∧
    (sf.run cb now).sf.currentState = sf.currentState ∧
    (sf.run cb now).calls
      = [(asString ((JVal.jobj kvs).member "Resource"), sf.globalState)] ∧
    ((sf.run cb now).sf.run cb2 now2).status = END_OF_PROCESS ∧
    ((sf.run cb now).sf.run cb2 now2).calls
      = [(asString ((JVal.jobj kvs).member "Resource"),
          (sf.run cb now).sf.globalState)] := by
  have hrun : sf.run cb now =
      { status := END_OF_PROCESS,
        sf := { sf with
                waitUntil := now,
                globalState :=
                  cb (asString ((JVal.jobj kvs).member "Resource"))
                    sf.globalState },
        calls := [(asString ((JVal.jobj kvs).member "Resource"),
                   sf.globalState)] } :=
    (run_at_state cb now sf kvs h_now h_state).trans
      (runState_task_end cb now sf kvs h_type h_next)
  have h_state2 :
      ({ sf with
         waitUntil := now,
         globalState :=
           cb (asString ((JVal.jobj kvs).member "Resource"))
             sf.globalState } : StepFunction).stateAt
        = some (.jobj kvs) := h_state
  have h_now2 : ¬ now2 <
      ({ sf with
         waitUntil := now,
         globalState :=
           cb (asString ((JVal.jobj kvs).member "Resource"))
             sf.globalState } : StepFunction).waitUntil := by
    simpa using Nat.not_lt.mpr h_later
  have hrun2 := (run_at_state cb2 now2 _ kvs h_now2 h_state2).trans
    (runState_task_end cb2 now2 _ kvs h_type h_next)
  rw [hrun]
  exact ⟨rfl, rfl, rfl, by rw [hrun2], by rw [hrun2]⟩

/-- Witness for C3 at a concrete input: the terminal Task state `B`. -/
theorem run_task_no_next_witness :
    (¬ (4 : Nat) < sfTaskEnd.waitUntil ∧
     sfTaskEnd.stateAt = some (.jobj [("Type", .jstr "Task"),
       ("Resource", .jstr "log")]) ∧ (4 : Nat) ≤ 9) ∧
    ((sfTaskEnd.run cbSetHot 4).status = END_OF_PROCESS ∧
     (sfTaskEnd.run cbSetHot 4).sf.currentState = "B" ∧
     (sfTaskEnd.run cbSetHot 4).calls = [("log", sfTaskEnd.globalState)] ∧
     ((sfTaskEnd.run cbSetHot 4).sf.run cbSetHot 9).status
       = END_OF_PROCESS ∧
     ((sfTaskEnd.run cbSetHot 4).sf.run cbSetHot 9).calls
       = [("log", (sfTaskEnd.run cbSetHot 4).sf.globalState)]) :=
  ⟨⟨by decide, rfl, by decide⟩,
    run_task_no_next cbSetHot cbSetHot 4 9 sfTaskEnd
      [("Type", .jstr "Task"), ("Resource", .jstr "log")]
      (by decide) rfl rfl rfl (by decide)⟩

/-- C4: for a Wait descriptor with declared duration `d` (the `Millis`
field, a non-negative `int`), one `run()` call past the deadline sets
`waitUntil = now + d` (32-bit unsigned arithmetic; the stated range
hypotheses keep it un-wrapped) and commits `currentState` to the
descriptor's `Next` target in that same call, so any re-entry of `run()`
before the new deadline returns WAIT_DELAY while `currentState` already
names the state after the Wait. -/
theorem run_wait_commits_next (cb cb2 : FunctionCallback)
    (now now2 : Nat) (sf : StepFunction) (kvs : List (String × JVal))
    (d : Int)
    (h_now : ¬ now < sf.waitUntil)
    (h_state : sf.stateAt = some (.jobj kvs))
    (h_type : asString ((JVal.jobj kvs).member "Type") = "Wait")
    (h_millis : (JVal.jobj kvs).member "Millis" = some (.jint d))
    (h_d0 : 0 ≤ d) (h_d1 : d < 2147483648)
    (h_range : now + d.toNat < 4294967296)
    (h_before : now2 < now + d.toNat) :
    (sf.run cb now).sf.waitUntil = now + d.toNat ∧
    (sf.run cb now).sf.currentState
      = asString ((JVal.jobj kvs).member "Next") ∧
    ((sf.run cb now).sf.run cb2 now2).status = WAIT_DELAY ∧
    ((sf.run cb now).sf.run cb2 now2).sf.currentState
      = asString ((JVal.jobj kvs).member "Next") := by
  have hW : (((now : Int)
      + asInt32 ((JVal.jobj kvs).member "Millis")) % 4294967296).toNat
      = now + d.toNat := by
    rw [h_millis]
    simp only [asInt32]
    omega
  have hrun : sf.run cb now =
      { status := WAIT_DELAY,
        sf := { sf with
                waitUntil :=
                  (((now : Int)
                    + asInt32 ((JVal.jobj kvs).member "Millis"))
                      % 4294967296).toNat,
                currentState := asString ((JVal.jobj kvs).member "Next") },
        calls := [] } :=
    (run_at_state cb now sf kvs h_now h_state).trans
      (runState_wait cb now sf kvs h_type)
  have hlt : now2 <
      ({ sf with
         waitUntil :=
           (((now : Int)
             + asInt32 ((JVal.jobj kvs).member "Millis"))
               % 4294967296).toNat,
         currentState := asString ((JVal.jobj kvs).member "Next") }
         : StepFunction).waitUntil := by
    show now2 < (((now : Int)
      + asInt32 ((JVal.jobj kvs).member "Millis")) % 4294967296).toNat
    rw [hW]
    exact h_before
  have hrun2 := run_waiting cb2 now2 _ hlt
  refine ⟨?_, ?_, ?_, ?_⟩
  · simp only [hrun]; exact hW
  · simp only [hrun]
  · simp only [hrun, hrun2]
  · simp only [hrun, hrun2]

/-- Witness for C4 at a concrete input: the Wait state `C` entered at
clock 100 sets the deadline to 5100 and commits `"E"`; a re-entry at
clock 300 still reports WAIT_DELAY with the cursor on `"E"`. -/
theorem run_wait_commits_next_witness :
    (¬ (100 : Nat) < sfWait.waitUntil ∧
     sfWait.stateAt = some (.jobj [("Type", .jstr "Wait"),
       ("Millis", .jint 5000), ("Next", .jstr "E")]) ∧
     (100 : Nat) + (5000 : Int).toNat < 4294967296 ∧
     (300 : Nat) < 100 + (5000 : Int).toNat) ∧
    ((sfWait.run cbKeep 100).sf.waitUntil = 100 + (5000 : Int).toNat ∧
     (sfWait.run cbKeep 100).sf.currentState = "E" ∧
     ((sfWait.run cbKeep 100).sf.run cbKeep 300).status = WAIT_DELAY ∧
     ((sfWait.run cbKeep 100).sf.run cbKeep 300).sf.currentState = "E") :=
  ⟨⟨by decide, rfl, by decide, by decide⟩,
    run_wait_commits_next cbKeep cbKeep 100 300 sfWait
      [("Type", .jstr "Wait"), ("Millis", .jint 5000), ("Next", .jstr "E")]
      5000 (by decide) rfl rfl rfl (by decide) (by decide) (by decide)
      (by decide)⟩

/-- C5: whenever `run()` is called with the clock strictly earlier than
`waitUntil`, it sets `recommendedDelay` to `waitUntil - now` (the
difference is positive here, so the floor at 0 is vacuous) and returns
WAIT_DELAY, leaving `currentState`, `waitUntil`, the variable store and
the definition unchanged. -/
theorem run_wait_delay_frame (cb : FunctionCallback) (now : Nat)
    (sf : StepFunction) (h : now < sf.waitUntil) :
    sf.run cb now =
      { status := WAIT_DELAY,
        sf := { sf with recommendedDelay := sf.waitUntil - now },
        calls := [] } := by
  unfold StepFunction.run
  rw [if_pos h]

/-- Witness for C5 at a concrete input: an interpreter waiting until 5,
called at clock 2, reports WAIT_DELAY and a recommended delay of 3. -/
theorem run_wait_delay_frame_witness :
    (2 : Nat) < sfMidWait.waitUntil ∧
    sfMidWait.run cbKeep 2 =
      { status := WAIT_DELAY,
        sf := { sfMidWait with recommendedDelay := 3 },
        calls := [] } :=
  ⟨by decide, run_wait_delay_frame cbKeep 2 sfMidWait (by decide)⟩

/-- C8: restoring the blob produced by `saveState` succeeds (returns
true) and leaves the variable store, `currentState`, `waitUntil` and
`recommendedDelay` equal to their values at the time of the save — for
every interpreter state whose store is an object or the empty (null)
document and whose `unsigned long` fields lie in 32-bit range, into any
interpreter (the definition document of the target is untouched). -/
theorem saveState_restoreState_roundtrip (sf sf2 : StepFunction)
    (h_gs : sf.globalState.isObjOrNull = true)
    (h_wu : sf.waitUntil < 4294967296)
    (h_rd : sf.recommendedDelay < 4294967296) :
    sf2.restoreState (some sf.saveState) =
      (true, { sf2 with
               globalState := sf.globalState,
               currentState := sf.currentState,
               waitUntil := sf.waitUntil,
               recommendedDelay := sf.recommendedDelay }) := by
  have h1 : sf.saveState.member "GlobalState" = some sf.globalState := rfl
  have h2 : sf.saveState.member "CurrentState"
      = some (.jstr sf.currentState) := rfl
  have h3 : sf.saveState.member "WaitUntil"
      = some (.jint (sf.waitUntil : Int)) := rfl
  have h4 : sf.saveState.member "RecommendedDelay"
      = some (.jint (sf.recommendedDelay : Int)) := rfl
  simp only [StepFunction.restoreState, h1, h2, h3, h4,
    asObjDoc_of_isObjOrNull sf.globalState h_gs,
    asUInt32_coe sf.waitUntil h_wu, asUInt32_coe sf.recommendedDelay h_rd]
  rfl

/-- Witness for C8 at a concrete input: saving `sfRich` and restoring
into `sfMidWait` reproduces `sfRich`'s store, cursor and delay
bookkeeping. -/
theorem saveState_restoreState_roundtrip_witness :
    (sfRich.globalState.isObjOrNull = true ∧
     sfRich.waitUntil < 4294967296 ∧
     sfRich.recommendedDelay < 4294967296) ∧
    sfMidWait.restoreState (some sfRich.saveState) =
      (true, { sfMidWait with
               globalState := sfRich.globalState,
               currentState := sfRich.currentState,
               waitUntil := sfRich.waitUntil,
               recommendedDelay := sfRich.recommendedDelay }) :=
  ⟨⟨rfl, by decide, by decide⟩,
    saveState_restoreState_roundtrip sfRich sfMidWait rfl
      (by decide) (by decide)⟩

/-- C9: a blob that fails to parse makes `restoreState` return false and
leaves the variable store, `currentState`, `waitUntil` and
`recommendedDelay` (indeed the whole interpreter) unmodified. -/
theorem restoreState_parse_failure (sf : StepFunction) :
    sf.restoreState none = (false, sf) := rfl

/-- C10: `restoreState` does no schema validation beyond JSON
well-formedness: every parsed document is accepted (returns true), and
on `{}` — all four keys absent — the variable store becomes the empty
(null) document, `currentState` the empty string, `waitUntil` 0 and
`recommendedDelay` 0. -/
theorem restoreState_no_schema_validation (sf : StepFunction) (j : JVal) :
    (sf.restoreState (some j)).1 = true ∧
    sf.restoreState (some (.jobj [])) =
      (true, { sf with
               globalState := .jnull, currentState := "",
               waitUntil := 0, recommendedDelay := 0 }) :=
  ⟨rfl, rfl⟩

/-- C7 counterexample: `setup` on well-formed definition JSON does set
`currentState = StartAt`, but it does NOT reset `waitUntil`: an
interpreter that had `waitUntil = 5` still has `waitUntil = 5` after a
successful `setup`, not the unset value 0. -/
theorem setup_keeps_waitUntil_counterexample :
    (sfMidWait.setup (some defStartA)).currentState = "A" ∧
    (sfMidWait.setup (some defStartA)).waitUntil = 5 ∧ (5 : Nat) ≠ 0 :=
  ⟨rfl, rfl, by decide⟩

/-- C7 amended: after a successful `setup` on well-formed definition
JSON, `currentState` equals the definition's `StartAt` string and the
document is installed, but `waitUntil` (like the variable store and
`recommendedDelay`) retains whatever value it had before the call — it
is not reset. -/
theorem setup_sets_currentState_only (sf : StepFunction) (j : JVal)
    (s : String) (h : j.member "StartAt" = some (.jstr s)) :
    (sf.setup (some j)).currentState = s ∧
    (sf.setup (some j)).doc = j ∧
    (sf.setup (some j)).waitUntil = sf.waitUntil ∧
    (sf.setup (some j)).globalState = sf.globalState ∧
    (sf.setup (some j)).recommendedDelay = sf.recommendedDelay := by
  refine ⟨?_, rfl, rfl, rfl, rfl⟩
  simp [StepFunction.setup, h, asString]

/-- Witness for the amended C7 at a concrete input. -/
theorem setup_sets_currentState_only_witness :
    defStartA.member "StartAt" = some (.jstr "A") ∧
    ((sfMidWait.setup (some defStartA)).currentState = "A" ∧
     (sfMidWait.setup (some defStartA)).doc = defStartA ∧
     (sfMidWait.setup (some defStartA)).waitUntil = sfMidWait.waitUntil ∧
     (sfMidWait.setup (some defStartA)).globalState = sfMidWait.globalState ∧
     (sfMidWait.setup (some defStartA)).recommendedDelay
       = sfMidWait.recommendedDelay) :=
  ⟨rfl, setup_sets_currentState_only sfMidWait defStartA "A" rfl⟩

/-- C6 counterexample: on a descriptor whose `Type` is `"Succeed"` — not
Task, Choice or Wait — `run()` returns NEXT_STEP, not INVALID_STATE: the
type dispatch falls through every branch to the final
`return NEXT_STEP`. -/
theorem run_unknown_type_counterexample :
    (sfSucceed.run cbKeep 0).status = NEXT_STEP ∧
    (sfSucceed.run cbKeep 0).status ≠ INVALID_STATE :=
  ⟨rfl, by decide⟩

/-- C6 amended: when the current descriptor exists but its `Type` is none
of Task, Choice or Wait, `run()` returns NEXT_STEP with the whole
interpreter unchanged (INVALID_STATE is returned only when the state
lookup fails to produce an object). -/
theorem run_unknown_type_next_step (cb : FunctionCallback) (now : Nat)
    (sf : StepFunction) (kvs : List (String × JVal))
    (h_now : ¬ now < sf.waitUntil)
    (h_state : sf.stateAt = some (.jobj kvs))
    (h_task : asString ((JVal.jobj kvs).member "Type") ≠ "Task")
    (h_choice : asString ((JVal.jobj kvs).member "Type") ≠ "Choice")
    (h_wait : asString ((JVal.jobj kvs).member "Type") ≠ "Wait") :
    sf.run cb now = { status := NEXT_STEP, sf := sf, calls := [] } := by
  unfold StepFunction.run
  rw [if_neg h_now, h_state]
  simp only [runState, beq_iff_eq]
  rw [if_neg h_task, if_neg h_choice, if_neg h_wait]

/-- Witness for the amended C6 at a concrete input: the `"Succeed"`
state. -/
theorem run_unknown_type_next_step_witness :
    (¬ (0 : Nat) < sfSucceed.waitUntil ∧
     sfSucceed.stateAt = some (.jobj [("Type", .jstr "Succeed")])) ∧
    sfSucceed.run cbKeep 0
      = { status := NEXT_STEP, sf := sfSucceed, calls := [] } :=
  ⟨⟨by decide, rfl⟩,
    run_unknown_type_next_step cbKeep 0 sfSucceed
      [("Type", .jstr "Succeed")] (by decide) rfl
      (by decide) (by decide) (by decide)⟩

end ArduinoStepFunction
